import Mathlib

/-!
Shallow embedding of `selfdrive/controls/lib/vision_turn_controller.py`
(the `VisionTurnController` class and its module-level helpers), with
real-number arithmetic in place of Python floats.

External collaborators that are not part of the file are modelled
explicitly and marked as such on each definition: the persisted parameter
store and the wall clock become extra inputs of `update`, the numpy and
`common.numpy_fast` helpers are given as real-valued functions, and the
`cereal` state enum becomes an inductive type.
-/

noncomputable section

namespace VisionTurn

/-- Source constant `_MIN_V` (do not operate under 20 km/h). -/
def MIN_V : ℝ := 5.6

/-- Source constant `_MIN_V_SOLUTION` (minimum speed to provide as solution, m/s). -/
def MIN_V_SOLUTION : ℝ := 8.33

/-- Source constant `_ENTERING_PRED_LAT_ACC_TH`. -/
def ENTERING_PRED_LAT_ACC_TH : ℝ := 1.3

/-- Source constant `_ABORT_ENTERING_PRED_LAT_ACC_TH`. -/
def ABORT_ENTERING_PRED_LAT_ACC_TH : ℝ := 1.1

/-- Source constant `_TURNING_LAT_ACC_TH`. -/
def TURNING_LAT_ACC_TH : ℝ := 1.5

/-- Source constant `_LEAVING_LAT_ACC_TH`. -/
def LEAVING_LAT_ACC_TH : ℝ := 1.3

/-- Source constant `_FINISH_LAT_ACC_TH`. -/
def FINISH_LAT_ACC_TH : ℝ := 1.1

/-- Source constant `_EVAL_STEP` (metres, resolution of the curvature evaluation). -/
def EVAL_STEP : ℝ := 5

/-- Source constant `_EVAL_START` (metres ahead where curvature evaluation starts). -/
def EVAL_START : ℝ := 20

/-- Source constant `_A_LAT_REG_MAX` (maximum lateral acceleration). -/
def A_LAT_REG_MAX : ℝ := 2

/-- Source constant `_MIN_LANE_PROB`. -/
def MIN_LANE_PROB : ℝ := 0.6

/-- Source `_EVAL_RANGE = np.arange(_EVAL_START, _EVAL_LENGHT, _EVAL_STEP)`:
the half-open range from 20 m up to but excluding 150 m in steps of 5 m,
i.e. exactly these 26 sample distances. -/
def EVAL_RANGE : List ℝ :=
  [20, 25, 30, 35, 40, 45, 50, 55, 60, 65, 70, 75, 80,
   85, 90, 95, 100, 105, 110, 115, 120, 125, 130, 135, 140, 145]

/-- Modelled from the spec: `Conversions.DEG_TO_RAD` from `selfdrive/config.py`
(not under the embedded sources), degrees to radians. -/
def DEG_TO_RAD : ℝ := Real.pi / 180

/-- Modelled from the spec: `Conversions.KPH_TO_MS` from `selfdrive/config.py`
(not under the embedded sources). -/
def KPH_TO_MS : ℝ := 1 / 3.6

/-- Modelled from the spec: `V_CRUISE_MAX` from
`selfdrive/controls/lib/drive_helpers.py` (not under the embedded sources),
the configured maximum cruise speed in km/h. -/
def V_CRUISE_MAX : ℝ := 135

/-- Modelled from the spec: `TRAJECTORY_SIZE` from
`selfdrive/controls/lib/lane_planner.py` (not under the embedded sources),
the fixed length of the longitudinal lane-line grid. -/
def TRAJECTORY_SIZE : ℕ := 33

/-- Modelled from the spec: `common.numpy_fast.interp` (not under the embedded
sources), the breakpoint/value lookup table of the spec: a piecewise-linear
function through the ordered breakpoints `xp` with values `fp`, clamped flat
at both edges for out-of-range inputs. -/
def interp (x : ℝ) : List ℝ → List ℝ → ℝ
  | [], _ => 0
  | _ :: _, [] => 0
  | [_], f0 :: _ => f0
  | _ :: _ :: _, [f0] => f0
  | x0 :: x1 :: xs, f0 :: f1 :: fs =>
      if x ≤ x0 then f0
      else if x ≤ x1 then (x - x0) * (f1 - f0) / (x1 - x0) + f0
      else interp x (x1 :: xs) (f1 :: fs)

/-- The `log.LongitudinalPlan.VisionTurnControllerState` enum from `cereal`. -/
inductive VTCState
  | disabled
  | entering
  | turning
  | leaving
  deriving DecidableEq, Inhabited

/-- A cubic path polynomial as produced by `np.polyfit(_, _, 3)`: coefficients
ordered highest degree first, `poly[0] = c3` down to `poly[3] = c0`. -/
structure Poly where
  c3 : ℝ
  c2 : ℝ
  c1 : ℝ
  c0 : ℝ
  deriving Inhabited

/-- The straight-line polynomial `np.array([0., 0., 0., 0.])`. -/
def zeroPoly : Poly := ⟨0, 0, 0, 0⟩

/-- The per-sample curvature formula inside `eval_curvature`:
`abs(2*poly[1] + 6*poly[0]*x) / (1 + (3*poly[0]*x**2 + 2*poly[1]*x + poly[2])**2)**1.5`. -/
def curvAt (p : Poly) (x : ℝ) : ℝ :=
  |2 * p.c2 + 6 * p.c3 * x| /
    (1 + (3 * p.c3 * x ^ 2 + 2 * p.c2 * x + p.c1) ^ 2) ^ (1.5 : ℝ)

/-- Source `eval_curvature`: the curvature of the path defined by `poly`
evaluated at each entry of the distance vector `x_vals`. -/
def eval_curvature (p : Poly) (x_vals : List ℝ) : List ℝ :=
  x_vals.map (curvAt p)

/-- The per-sample lateral acceleration formula inside `eval_lat_acc`:
`v_ego**2 * curv`. -/
def latAccAt (v_ego curv : ℝ) : ℝ := v_ego ^ 2 * curv

/-- Source `eval_lat_acc`: lateral acceleration at speed `v_ego` evaluated
over the curvature vector `x_curv`. -/
def eval_lat_acc (v_ego : ℝ) (x_curv : List ℝ) : List ℝ :=
  x_curv.map (latAccAt v_ego)

/-- `np.amax` of a list of reals (the source only applies it to the nonempty
26-sample curvature vector; on `[]` we return 0). -/
def npAmax : List ℝ → ℝ
  | [] => 0
  | x :: xs => xs.foldl max x

/-- Index of the first list entry that is `≥ th`, if any: the source computes
`np.nonzero(pred_curvatures >= max_curvature_for_vego)[0]` and then uses only
whether that index vector is nonempty and its first entry. -/
def firstIdxGe (th : ℝ) : List ℝ → Option ℕ
  | [] => none
  | x :: xs => if th ≤ x then some 0 else (firstIdxGe th xs).map Nat.succ

/-- One lane line of `modelV2.laneLines`: parallel time / distance / lateral
offset samples. -/
structure LaneLine where
  t : List ℝ
  x : List ℝ
  y : List ℝ
  deriving Inhabited

/-- The parts of the `modelV2` message read by `_update_calculations`. -/
structure ModelData where
  laneLines : List LaneLine
  laneLineProbs : List ℝ
  laneLineStds : List ℝ
  deriving Inhabited

/-- The parts of the `lateralPlan` message read by `_update_calculations`:
the lane-compensated driving path as parallel distance/offset sequences. -/
structure LatPlanData where
  dPathWLinesX : List ℝ
  dPathWLinesY : List ℝ
  deriving Inhabited

/-- The parts of the `carState` message read by the controller. -/
structure CarState where
  steeringAngleDeg : ℝ
  gasPressed : Bool
  deriving Inhabited

/-- The submaster snapshot `sm` passed to `update`: each optional message
comes with its validity flag (`sm.valid.get(..., False)`). -/
structure Snapshot where
  modelValid : Bool
  model : ModelData
  latPlanValid : Bool
  latPlan : LatPlanData
  carState : CarState
  deriving Inhabited

/-- A snapshot with no valid model or lateral-plan data, only car state. -/
def plainSnap (steer : ℝ) (gas : Bool) : Snapshot :=
  { modelValid := false
    model := default
    latPlanValid := false
    latPlan := default
    carState := { steeringAngleDeg := steer, gasPressed := gas } }

/-- Sum of `k`-th powers of the entries of `xs`. -/
def powSum (xs : List ℝ) (k : ℕ) : ℝ := (xs.map fun x => x ^ k).sum

/-- Sum of `x_i ^ k * y_i` over the zipped entries of `xs` and `ys`. -/
def mixSum (xs ys : List ℝ) (k : ℕ) : ℝ :=
  (List.zipWith (fun x y => x ^ k * y) xs ys).sum

/-- Determinant of a 3 by 3 matrix given row-major. -/
def det3 (a b c d e f g h i : ℝ) : ℝ :=
  a * (e * i - f * h) - b * (d * i - f * g) + c * (d * h - e * g)

/-- Determinant of a 4 by 4 matrix given row-major, expanded along the
first row. -/
def det4 (a b c d e f g h i j k l m n o p : ℝ) : ℝ :=
  a * det3 f g h j k l n o p - b * det3 e g h i k l m o p +
    c * det3 e f h i j l m n p - d * det3 e f g i j k m n o

/-- Modelled from the spec: `np.polyfit(xs, ys, 3)` (numpy, not under the
embedded sources), the least-squares cubic fit of the points `(xs, ys)`,
computed here through the normal equations solved by the Cramer rule.  The
coefficient order is highest degree first, as numpy returns it.  The
singular case is degenerate input that the embedded cycles never produce. -/
def polyfit (xs ys : List ℝ) : Poly :=
  let s0 := powSum xs 0
  let s1 := powSum xs 1
  let s2 := powSum xs 2
  let s3 := powSum xs 3
  let s4 := powSum xs 4
  let s5 := powSum xs 5
  let s6 := powSum xs 6
  let t0 := mixSum xs ys 0
  let t1 := mixSum xs ys 1
  let t2 := mixSum xs ys 2
  let t3 := mixSum xs ys 3
  let dd := det4 s6 s5 s4 s3 s5 s4 s3 s2 s4 s3 s2 s1 s3 s2 s1 s0
  let d3 := det4 t3 s5 s4 s3 t2 s4 s3 s2 t1 s3 s2 s1 t0 s2 s1 s0
  let d2 := det4 s6 t3 s4 s3 s5 t2 s3 s2 s4 t1 s2 s1 s3 t0 s1 s0
  let d1 := det4 s6 s5 t3 s3 s5 s4 t2 s2 s4 s3 t1 s1 s3 s2 t0 s0
  let d0 := det4 s6 s5 s4 t3 s5 s4 s3 t2 s4 s3 s2 t1 s3 s2 s1 t0
  ⟨d3 / dd, d2 / dd, d1 / dd, d0 / dd⟩

/-- The path-polynomial derivation at the top of `_update_calculations`,
with its three tiers:
1. centre line fitted from the inner lane lines when the model data is
   valid, has 4 lane lines on the full grid, and both width- and
   uncertainty-adjusted lane probabilities exceed `_MIN_LANE_PROB`;
2. otherwise a fit of the lane-compensated driving path from the lateral
   planner when available and starting at a strictly positive distance;
3. otherwise the straight-line zero polynomial. -/
def pathPoly (v_ego : ℝ) (sm : Snapshot) : Poly :=
  let fromLanes : Option Poly :=
    if sm.modelValid = true ∧ sm.model.laneLines.length = 4 ∧
        (sm.model.laneLines.headD default).t.length = TRAJECTORY_SIZE then
      let ll_x := (sm.model.laneLines.getD 1 default).x
      let lll_y := (sm.model.laneLines.getD 1 default).y
      let rll_y := (sm.model.laneLines.getD 2 default).y
      let width_pts := List.zipWith (fun r l => r - l) rll_y lll_y
      let probMod : ℝ → ℝ := fun t_check =>
        interp (interp (t_check * (v_ego + 7)) ll_x width_pts) [4, 5] [1, 0]
      let m := min (probMod 0) (min (probMod 1.5) (probMod 3))
      let l_prob := sm.model.laneLineProbs.getD 1 0 * m *
        interp (sm.model.laneLineStds.getD 1 0) [0.15, 0.3] [1, 0]
      let r_prob := sm.model.laneLineProbs.getD 2 0 * m *
        interp (sm.model.laneLineStds.getD 2 0) [0.15, 0.3] [1, 0]
      if l_prob > MIN_LANE_PROB ∧ r_prob > MIN_LANE_PROB then
        some (polyfit ll_x (List.zipWith (fun w ly => w / 2 + ly) width_pts lll_y))
      else none
    else none
  let withFallback : Option Poly :=
    match fromLanes with
    | some p => some p
    | none =>
        if sm.latPlanValid = true ∧ 0 < sm.latPlan.dPathWLinesX.length ∧
            sm.latPlan.dPathWLinesX.headD 0 > 0 then
          some (polyfit sm.latPlan.dPathWLinesX sm.latPlan.dPathWLinesY)
        else none
  withFallback.getD zeroPoly

/-- The mutable state of a `VisionTurnController` instance: the constructor
arguments read from `CP`, the per-cycle stored inputs, the cached feature
toggle, the state machine value, the `LateralAccState` scalars and the
solution outputs. -/
structure Ctrl where
  steerRatio : ℝ
  wheelbase : ℝ
  op_enabled : Bool
  gas_pressed : Bool
  is_enabled : Bool
  last_params_update : ℝ
  v_cruise_setpoint : ℝ
  v_ego : ℝ
  a_ego : ℝ
  state : VTCState
  current_lat_acc : ℝ
  max_v_for_current_curvature : ℝ
  max_pred_lat_acc : ℝ
  v_overshoot_distance : ℝ
  v_overshoot : ℝ
  lat_acc_overshoot_ahead : Bool
  v_turn : ℝ
  acc_limits : ℝ × ℝ

/-- Source `_reset`: the `LateralAccState` fields take their fixed defaults. -/
def resetLat (s : Ctrl) : Ctrl :=
  { s with
    current_lat_acc := 0
    max_v_for_current_curvature := 0
    max_pred_lat_acc := 0
    v_overshoot_distance := 200
    v_overshoot := 0
    lat_acc_overshoot_ahead := false }

/-- Source `__init__`: the constructor state, with the initial feature toggle
read from the parameter store passed in as `toggle` (the store itself is an
external collaborator).  Fields the constructor leaves unset before the
first `update` call (`_v_turn`, `_acc_limits`, `_a_ego`) are given zeros. -/
def initCtrl (steerRatio wheelbase : ℝ) (toggle : Bool) : Ctrl :=
  resetLat
    { steerRatio := steerRatio
      wheelbase := wheelbase
      op_enabled := false
      gas_pressed := false
      is_enabled := toggle
      last_params_update := 0
      v_cruise_setpoint := 0
      v_ego := 0
      a_ego := 0
      state := .disabled
      current_lat_acc := 0
      max_v_for_current_curvature := 0
      max_pred_lat_acc := 0
      v_overshoot_distance := 0
      v_overshoot := 0
      lat_acc_overshoot_ahead := false
      v_turn := 0
      acc_limits := (0, 0) }

/-- Source `_update_params`, with the two external collaborators made
explicit: `now` models `sec_since_boot()` and `store` models the value
`self._params.get_bool("TurnVisionControl")` would return this cycle. -/
def update_params (s : Ctrl) (now : ℝ) (store : Bool) : Ctrl :=
  if now > s.last_params_update + 5 then
    { s with is_enabled := store, last_params_update := now }
  else s

/-- The cached feature toggle as the cycle beginning at time `now` sees it:
the value `_update_params` leaves in `_is_enabled`. -/
def effToggle (s : Ctrl) (now : ℝ) (store : Bool) : Bool :=
  if now > s.last_params_update + 5 then store else s.is_enabled

/-- Source `_update_calculations`: derive the path polynomial, the current
curvature and lateral acceleration, the prediction over the evaluation
grid, and the overshoot detection. -/
def update_calculations (s : Ctrl) (sm : Snapshot) : Ctrl :=
  let path_poly := pathPoly s.v_ego sm
  let current_curvature :=
    |sm.carState.steeringAngleDeg * DEG_TO_RAD / (s.steerRatio * s.wheelbase)|
  let pred_curvatures := eval_curvature path_poly EVAL_RANGE
  let max_pred_curvature := npAmax pred_curvatures
  let max_curvature_for_vego := A_LAT_REG_MAX / max s.v_ego 0.1 ^ 2
  let overshoot_idx := firstIdxGe max_curvature_for_vego pred_curvatures
  { s with
    current_lat_acc := current_curvature * s.v_ego ^ 2
    max_v_for_current_curvature :=
      if current_curvature > 0 then Real.sqrt (A_LAT_REG_MAX / current_curvature)
      else V_CRUISE_MAX * KPH_TO_MS
    max_pred_lat_acc := s.v_ego ^ 2 * max_pred_curvature
    lat_acc_overshoot_ahead := overshoot_idx.isSome
    v_overshoot :=
      if overshoot_idx.isSome then
        min (Real.sqrt (A_LAT_REG_MAX / max_pred_curvature)) s.v_cruise_setpoint
      else s.v_overshoot
    v_overshoot_distance :=
      if overshoot_idx.isSome then
        max ((overshoot_idx.getD 0 : ℝ) * EVAL_STEP + EVAL_START) EVAL_STEP
      else s.v_overshoot_distance }

/-- The `state` property setter: on an actual change to `disabled` the
`LateralAccState` fields are reset; then the new value is stored. -/
def setState (s : Ctrl) (v : VTCState) : Ctrl :=
  let s1 := if v ≠ s.state then (if v = .disabled then resetLat s else s) else s
  { s1 with state := v }

/-- The target state chosen by `_state_transition`: the global
enabled/feature/gas guard first, then the per-state transition table.
Branches in which the source assigns nothing keep the current state. -/
def nextState (s : Ctrl) : VTCState :=
  if !s.op_enabled || !s.is_enabled || s.gas_pressed then .disabled
  else
    match s.state with
    | .disabled =>
        if s.v_ego ≤ MIN_V then .disabled
        else if s.max_pred_lat_acc ≥ ENTERING_PRED_LAT_ACC_TH then .entering
        else .disabled
    | .entering =>
        if s.current_lat_acc ≥ TURNING_LAT_ACC_TH then .turning
        else if s.max_pred_lat_acc < ABORT_ENTERING_PRED_LAT_ACC_TH then .disabled
        else .entering
    | .turning =>
        if s.current_lat_acc ≤ LEAVING_LAT_ACC_TH then .leaving
        else .turning
    | .leaving =>
        if s.current_lat_acc ≥ TURNING_LAT_ACC_TH then .turning
        else if s.current_lat_acc < FINISH_LAT_ACC_TH then .disabled
        else .leaving

/-- Source `_state_transition`: assign the chosen next state through the
`state` setter (writing the unchanged state back is the identity, so the
source branches that assign nothing are covered). -/
def state_transition (s : Ctrl) : Ctrl :=
  setState s (nextState s)

/-- Source `_EVAL_RANGE[-1]`, the last grid distance. -/
def evalRangeLast : ℝ := EVAL_RANGE.getLastD 0

/-- The `min_acc` lookup at the top of the ENTERING branch of
`_update_solution`. -/
def enteringMinAcc (s : Ctrl) : ℝ :=
  interp s.max_pred_lat_acc [1, 3] [-0.3, -1]

/-- The local `v_turn` value of `_update_solution` just before the final
clamp: initialized to the cruise setpoint and overwritten per state.  The
`try/except ValueError` around `math.sqrt` becomes an explicit test of the
radicand sign. -/
def solutionVTurn (s : Ctrl) : ℝ :=
  match s.state with
  | .disabled => s.v_cruise_setpoint
  | .entering =>
      if !s.lat_acc_overshoot_ahead then
        let radicand := s.v_ego ^ 2 + 2 * enteringMinAcc s * evalRangeLast
        if radicand < 0 then MIN_V_SOLUTION else Real.sqrt radicand
      else s.v_overshoot
  | .turning => min s.v_ego s.max_v_for_current_curvature
  | .leaving => min s.v_ego s.v_cruise_setpoint

/-- The `acc_limits[0]` value left by `_update_solution`: tightened in the
ENTERING branch, overwritten from the turning lookup table in the TURNING
branch, untouched otherwise. -/
def solutionAccMin (s : Ctrl) : ℝ :=
  match s.state with
  | .disabled => s.acc_limits.1
  | .entering =>
      let min_acc := enteringMinAcc s
      let min_acc :=
        if s.lat_acc_overshoot_ahead then
          min ((s.v_overshoot ^ 2 - s.v_ego ^ 2) / (2 * s.v_overshoot_distance)) min_acc
        else min_acc
      min min_acc s.acc_limits.1
  | .turning => interp s.current_lat_acc [1, 2, 3] [-0.1, -0.2, -0.4]
  | .leaving => s.acc_limits.1

/-- Source `_update_solution`: store the clamped `v_turn` and the possibly
modified acceleration limits (only index 0 is ever written). -/
def update_solution (s : Ctrl) : Ctrl :=
  { s with
    v_turn := max (solutionVTurn s) MIN_V_SOLUTION
    acc_limits := (solutionAccMin s, s.acc_limits.2) }

/-- Source `update`: store the cycle inputs, then run params refresh,
calculations, state transition and solution in order.  `now` and `store`
model the external clock and parameter store reads of `_update_params`. -/
def update (s : Ctrl) (enabled : Bool) (v_ego a_ego v_cruise_setpoint : ℝ)
    (acc_limits : ℝ × ℝ) (sm : Snapshot) (now : ℝ) (store : Bool) : Ctrl :=
  let s := { s with
    op_enabled := enabled
    gas_pressed := sm.carState.gasPressed
    v_ego := v_ego
    a_ego := a_ego
    v_cruise_setpoint := v_cruise_setpoint
    acc_limits := acc_limits }
  let s := update_params s now store
  let s := update_calculations s sm
  let s := state_transition s
  update_solution s

/-- The `v_turn` read-only property: the solved speed when the state machine
is not disabled, the raw cruise setpoint otherwise. -/
def v_turn_out (s : Ctrl) : ℝ :=
  if s.state ≠ .disabled then s.v_turn else s.v_cruise_setpoint

/-- The `is_active` read-only property. -/
def is_active (s : Ctrl) : Bool :=
  s.state ≠ .disabled

/-! ### Helper lemmas about the embedded operations -/

@[simp] lemma update_params_op_enabled (s : Ctrl) (now : ℝ) (store : Bool) :
    (update_params s now store).op_enabled = s.op_enabled := by
  unfold update_params; split <;> rfl

@[simp] lemma update_params_gas_pressed (s : Ctrl) (now : ℝ) (store : Bool) :
    (update_params s now store).gas_pressed = s.gas_pressed := by
  unfold update_params; split <;> rfl

@[simp] lemma update_params_state (s : Ctrl) (now : ℝ) (store : Bool) :
    (update_params s now store).state = s.state := by
  unfold update_params; split <;> rfl

@[simp] lemma update_params_v_ego (s : Ctrl) (now : ℝ) (store : Bool) :
    (update_params s now store).v_ego = s.v_ego := by
  unfold update_params; split <;> rfl

@[simp] lemma update_params_v_cruise (s : Ctrl) (now : ℝ) (store : Bool) :
    (update_params s now store).v_cruise_setpoint = s.v_cruise_setpoint := by
  unfold update_params; split <;> rfl

@[simp] lemma update_params_acc_limits (s : Ctrl) (now : ℝ) (store : Bool) :
    (update_params s now store).acc_limits = s.acc_limits := by
  unfold update_params; split <;> rfl

@[simp] lemma update_params_steerRatio (s : Ctrl) (now : ℝ) (store : Bool) :
    (update_params s now store).steerRatio = s.steerRatio := by
  unfold update_params; split <;> rfl

@[simp] lemma update_params_wheelbase (s : Ctrl) (now : ℝ) (store : Bool) :
    (update_params s now store).wheelbase = s.wheelbase := by
  unfold update_params; split <;> rfl

@[simp] lemma update_params_v_overshoot (s : Ctrl) (now : ℝ) (store : Bool) :
    (update_params s now store).v_overshoot = s.v_overshoot := by
  unfold update_params; split <;> rfl

@[simp] lemma update_params_v_overshoot_distance (s : Ctrl) (now : ℝ) (store : Bool) :
    (update_params s now store).v_overshoot_distance = s.v_overshoot_distance := by
  unfold update_params; split <;> rfl

@[simp] lemma update_params_is_enabled (s : Ctrl) (now : ℝ) (store : Bool) :
    (update_params s now store).is_enabled = effToggle s now store := by
  unfold update_params effToggle; split <;> rfl

@[simp] lemma update_calculations_op_enabled (s : Ctrl) (sm : Snapshot) :
    (update_calculations s sm).op_enabled = s.op_enabled := rfl

@[simp] lemma update_calculations_is_enabled (s : Ctrl) (sm : Snapshot) :
    (update_calculations s sm).is_enabled = s.is_enabled := rfl

@[simp] lemma update_calculations_gas_pressed (s : Ctrl) (sm : Snapshot) :
    (update_calculations s sm).gas_pressed = s.gas_pressed := rfl

@[simp] lemma update_calculations_state (s : Ctrl) (sm : Snapshot) :
    (update_calculations s sm).state = s.state := rfl

@[simp] lemma update_calculations_v_ego (s : Ctrl) (sm : Snapshot) :
    (update_calculations s sm).v_ego = s.v_ego := rfl

@[simp] lemma update_calculations_v_cruise (s : Ctrl) (sm : Snapshot) :
    (update_calculations s sm).v_cruise_setpoint = s.v_cruise_setpoint := rfl

@[simp] lemma update_calculations_acc_limits (s : Ctrl) (sm : Snapshot) :
    (update_calculations s sm).acc_limits = s.acc_limits := rfl

@[simp] lemma setState_state (s : Ctrl) (v : VTCState) :
    (setState s v).state = v := rfl

@[simp] lemma setState_acc_limits (s : Ctrl) (v : VTCState) :
    (setState s v).acc_limits = s.acc_limits := by
  unfold setState resetLat; split <;> (try split) <;> rfl

@[simp] lemma setState_v_cruise (s : Ctrl) (v : VTCState) :
    (setState s v).v_cruise_setpoint = s.v_cruise_setpoint := by
  unfold setState resetLat; split <;> (try split) <;> rfl

@[simp] lemma setState_v_ego (s : Ctrl) (v : VTCState) :
    (setState s v).v_ego = s.v_ego := by
  unfold setState resetLat; split <;> (try split) <;> rfl

/-- Assigning a non-`disabled` state through the setter never resets. -/
lemma setState_ne_disabled (s : Ctrl) (v : VTCState) (h : v ≠ .disabled) :
    setState s v = { s with state := v } := by
  unfold setState
  simp [h]

/-- Assigning `disabled` over a non-`disabled` state resets the
`LateralAccState` fields. -/
lemma setState_to_disabled (s : Ctrl) (h : s.state ≠ .disabled) :
    setState s .disabled = { resetLat s with state := .disabled } := by
  unfold setState
  rw [if_pos (Ne.symm h), if_pos rfl]

/-- Assigning the already-current `disabled` state does not reset. -/
lemma setState_disabled_self (s : Ctrl) (h : s.state = .disabled) :
    setState s .disabled = { s with state := .disabled } := by
  unfold setState
  rw [if_neg (by simp [h])]

@[simp] lemma state_transition_state (s : Ctrl) :
    (state_transition s).state = nextState s := rfl

@[simp] lemma state_transition_acc_limits (s : Ctrl) :
    (state_transition s).acc_limits = s.acc_limits := by
  unfold state_transition; simp

@[simp] lemma state_transition_v_cruise (s : Ctrl) :
    (state_transition s).v_cruise_setpoint = s.v_cruise_setpoint := by
  unfold state_transition; simp

@[simp] lemma update_solution_state (s : Ctrl) :
    (update_solution s).state = s.state := rfl

@[simp] lemma update_solution_v_cruise (s : Ctrl) :
    (update_solution s).v_cruise_setpoint = s.v_cruise_setpoint := rfl

@[simp] lemma update_solution_v_turn (s : Ctrl) :
    (update_solution s).v_turn = max (solutionVTurn s) MIN_V_SOLUTION := rfl

@[simp] lemma update_solution_acc_limits (s : Ctrl) :
    (update_solution s).acc_limits = (solutionAccMin s, s.acc_limits.2) := rfl

@[simp] lemma update_solution_current_lat_acc (s : Ctrl) :
    (update_solution s).current_lat_acc = s.current_lat_acc := rfl

@[simp] lemma update_solution_max_pred_lat_acc (s : Ctrl) :
    (update_solution s).max_pred_lat_acc = s.max_pred_lat_acc := rfl

@[simp] lemma update_solution_max_v (s : Ctrl) :
    (update_solution s).max_v_for_current_curvature = s.max_v_for_current_curvature := rfl

@[simp] lemma update_solution_overshoot_ahead (s : Ctrl) :
    (update_solution s).lat_acc_overshoot_ahead = s.lat_acc_overshoot_ahead := rfl

@[simp] lemma update_solution_v_overshoot_distance (s : Ctrl) :
    (update_solution s).v_overshoot_distance = s.v_overshoot_distance := rfl

@[simp] lemma update_solution_v_overshoot (s : Ctrl) :
    (update_solution s).v_overshoot = s.v_overshoot := rfl

/-- The curvature of the straight-line polynomial vanishes everywhere. -/
@[simp] lemma curvAt_zeroPoly (x : ℝ) : curvAt zeroPoly x = 0 := by
  unfold curvAt zeroPoly
  simp

/-- The last evaluation-grid distance is 145 m. -/
lemma evalRangeLast_eq : evalRangeLast = 145 := rfl

/-- The empty model and lateral-plan snapshot degrades the path polynomial
to the straight-line fallback. -/
@[simp] lemma pathPoly_plainSnap (v steer : ℝ) (gas : Bool) :
    pathPoly v (plainSnap steer gas) = zeroPoly := by
  unfold pathPoly plainSnap
  simp

/-- The curvature samples of the straight-line polynomial are all zero. -/
lemma eval_curvature_zeroPoly :
    eval_curvature zeroPoly EVAL_RANGE = List.replicate 26 (0 : ℝ) := by
  unfold eval_curvature EVAL_RANGE
  simp

/-- `np.amax` of a constant nonempty list is that constant. -/
lemma npAmax_replicate (n : ℕ) (x : ℝ) (h : n ≠ 0) :
    npAmax (List.replicate n x) = x := by
  cases n with
  | zero => exact absurd rfl h
  | succ m =>
      rw [List.replicate_succ]
      show (List.replicate m x).foldl max x = x
      induction m with
      | zero => rfl
      | succ k ih => rw [List.replicate_succ]; simpa using ih

/-- No entry of a list strictly below `th` ever reaches `th`. -/
lemma firstIdxGe_none (th : ℝ) (l : List ℝ) (h : ∀ c ∈ l, c < th) :
    firstIdxGe th l = none := by
  induction l with
  | nil => rfl
  | cons x xs ih =>
      unfold firstIdxGe
      rw [if_neg (not_le.mpr (h x (List.mem_cons_self x xs)))]
      rw [ih fun c hc => h c (List.mem_cons_of_mem x hc)]
      rfl

@[simp] lemma plainSnap_carState (steer : ℝ) (gas : Bool) :
    (plainSnap steer gas).carState = { steeringAngleDeg := steer, gasPressed := gas } := rfl

/-- With no valid model or lateral-plan data the calculation step sees the
straight-line polynomial: the current-curvature fields come from the
steering angle, the prediction maximum is zero, no overshoot is detected,
and the overshoot distance and speed keep their previous values. -/
lemma update_calculations_plainSnap (s : Ctrl) (a : ℝ) (g : Bool) :
    (update_calculations s (plainSnap a g)).current_lat_acc =
        |a * DEG_TO_RAD / (s.steerRatio * s.wheelbase)| * s.v_ego ^ 2 ∧
    (update_calculations s (plainSnap a g)).max_pred_lat_acc = 0 ∧
    (update_calculations s (plainSnap a g)).lat_acc_overshoot_ahead = false ∧
    (update_calculations s (plainSnap a g)).v_overshoot = s.v_overshoot ∧
    (update_calculations s (plainSnap a g)).v_overshoot_distance = s.v_overshoot_distance := by
  have hth : (0 : ℝ) < A_LAT_REG_MAX / max s.v_ego 0.1 ^ 2 := by
    apply div_pos
    · norm_num [A_LAT_REG_MAX]
    · have h1 : (0 : ℝ) < max s.v_ego 0.1 :=
        lt_of_lt_of_le (by norm_num) (le_max_right _ _)
      positivity
  have hkey0 : firstIdxGe (A_LAT_REG_MAX / max s.v_ego 0.1 ^ 2)
      (eval_curvature zeroPoly EVAL_RANGE) = none := by
    rw [eval_curvature_zeroPoly]
    refine firstIdxGe_none _ _ ?_
    intro c hc
    rw [List.eq_of_mem_replicate hc]
    exact hth
  have hamax0 : npAmax (eval_curvature zeroPoly EVAL_RANGE) = 0 := by
    rw [eval_curvature_zeroPoly]
    exact npAmax_replicate 26 0 (by norm_num)
  refine ⟨?_, ?_, ?_, ?_, ?_⟩ <;>
    simp [update_calculations, hkey0, hamax0]

/-- `update` spelled as the composition of its four phases on the stored
inputs. -/
lemma update_eq (s : Ctrl) (enabled : Bool) (v_ego a_ego v_cruise : ℝ)
    (acc : ℝ × ℝ) (sm : Snapshot) (now : ℝ) (store : Bool) :
    update s enabled v_ego a_ego v_cruise acc sm now store =
      update_solution (state_transition (update_calculations (update_params
        { s with
          op_enabled := enabled
          gas_pressed := sm.carState.gasPressed
          v_ego := v_ego
          a_ego := a_ego
          v_cruise_setpoint := v_cruise
          acc_limits := acc } now store) sm)) := rfl

/-! ### Claim theorems -/

/-- Claim C9: for every polynomial with coefficients ordered cubic to
constant and every x, the curvature function equals
abs(2 c2 + 6 c3 x) / (1 + (3 c3 x^2 + 2 c2 x + c1)^2)^1.5, so in particular
it is 0 at every x for the all-zero polynomial; and the lateral acceleration
function is v^2 * curv for all v ≥ 0 and curv ≥ 0. -/
theorem curvature_formula_and_lat_acc (p : Poly) (x v c : ℝ) :
    curvAt p x =
      |2 * p.c2 + 6 * p.c3 * x| /
        (1 + (3 * p.c3 * x ^ 2 + 2 * p.c2 * x + p.c1) ^ 2) ^ (1.5 : ℝ) ∧
    curvAt zeroPoly x = 0 ∧
    (0 ≤ v → 0 ≤ c → latAccAt v c = v ^ 2 * c) :=
  ⟨rfl, curvAt_zeroPoly x, fun _ _ => rfl⟩

/-- Witness for C9 at the polynomial (1, 2, 3, 4), x = 0, v = 3, curv = 2. -/
theorem curvature_formula_and_lat_acc_witness :
    (0 : ℝ) ≤ 3 ∧ (0 : ℝ) ≤ 2 ∧ latAccAt 3 2 = 3 ^ 2 * 2 :=
  ⟨by norm_num, by norm_num,
    (curvature_formula_and_lat_acc ⟨1, 2, 3, 4⟩ 0 3 2).2.2 (by norm_num) (by norm_num)⟩

/-- Claim C10: whenever the curvature evaluation reports an overshoot ahead,
the overshoot distance it stores in that same cycle is at least 5 m, so the
divisor 2 * overshoot_distance of the Entering overshoot branch is nonzero. -/
theorem overshoot_distance_at_least_five (s : Ctrl) (sm : Snapshot) :
    (update_calculations s sm).lat_acc_overshoot_ahead = false ∨
      (5 ≤ (update_calculations s sm).v_overshoot_distance ∧
        2 * (update_calculations s sm).v_overshoot_distance ≠ 0) := by
  rcases h : firstIdxGe (A_LAT_REG_MAX / max s.v_ego 0.1 ^ 2)
      (eval_curvature (pathPoly s.v_ego sm) EVAL_RANGE) with _ | i
  · left
    simp [update_calculations, h]
  · right
    have hd : (update_calculations s sm).v_overshoot_distance =
        max ((i : ℝ) * EVAL_STEP + EVAL_START) EVAL_STEP := by
      simp [update_calculations, h]
    have h5 : (5 : ℝ) ≤ max ((i : ℝ) * EVAL_STEP + EVAL_START) EVAL_STEP := by
      calc (5 : ℝ) = EVAL_STEP := by norm_num [EVAL_STEP]
        _ ≤ _ := le_max_right _ _
    refine ⟨by rw [hd]; exact h5, by rw [hd]; nlinarith [h5]⟩

/-- Claim C7: in the Entering state the minimum acceleration limit returned
by the solution step is never above the value passed in. -/
theorem entering_acc_min_tightens (s : Ctrl) (h : s.state = .entering) :
    (update_solution s).acc_limits.1 ≤ s.acc_limits.1 := by
  rw [update_solution_acc_limits]
  show solutionAccMin s ≤ s.acc_limits.1
  simp only [solutionAccMin, h]
  exact min_le_right _ _

/-- A concrete Entering-state controller used to instantiate the Entering
solution-branch claims. -/
def cW7 : Ctrl :=
  { steerRatio := 1
    wheelbase := 1
    op_enabled := true
    gas_pressed := false
    is_enabled := true
    last_params_update := 0
    v_cruise_setpoint := 20
    v_ego := 10
    a_ego := 0
    state := .entering
    current_lat_acc := 1
    max_v_for_current_curvature := 30
    max_pred_lat_acc := 2
    v_overshoot_distance := 20
    v_overshoot := 9
    lat_acc_overshoot_ahead := false
    v_turn := 15
    acc_limits := (-1, 2) }

/-- Witness for C7 at a concrete Entering-state controller. -/
theorem entering_acc_min_tightens_witness :
    (update_solution cW7).acc_limits.1 ≤ cW7.acc_limits.1 :=
  entering_acc_min_tightens cW7 rfl

/-- Claim C6: in the Entering state with no overshoot ahead, the solved
speed before the final clamp is sqrt(v_ego^2 + 2 min_acc 145) with
min_acc = interp(max_pred_lat_acc, [1, 3], [-0.3, -1.0]), falling back to
the minimum solution speed whenever the radicand is negative; the solution
step always completes, storing the clamped value. -/
theorem entering_no_overshoot_v_turn (s : Ctrl) (h1 : s.state = .entering)
    (h2 : s.lat_acc_overshoot_ahead = false) :
    solutionVTurn s =
      (if s.v_ego ^ 2 + 2 * interp s.max_pred_lat_acc [1, 3] [-0.3, -1] * 145 < 0
        then MIN_V_SOLUTION
        else Real.sqrt (s.v_ego ^ 2 + 2 * interp s.max_pred_lat_acc [1, 3] [-0.3, -1] * 145)) ∧
    (update_solution s).v_turn = max (solutionVTurn s) MIN_V_SOLUTION := by
  refine ⟨?_, rfl⟩
  simp only [solutionVTurn, h1, h2, enteringMinAcc, evalRangeLast_eq, Bool.not_false, if_true]

/-- A concrete Entering-state controller whose projected radicand is
negative: max_pred_lat_acc = 3 gives min_acc = -1 and
10^2 + 2 * (-1) * 145 = -190 < 0. -/
def cW6 : Ctrl :=
  { steerRatio := 1
    wheelbase := 1
    op_enabled := true
    gas_pressed := false
    is_enabled := true
    last_params_update := 0
    v_cruise_setpoint := 20
    v_ego := 10
    a_ego := 0
    state := .entering
    current_lat_acc := 1
    max_v_for_current_curvature := 30
    max_pred_lat_acc := 3
    v_overshoot_distance := 200
    v_overshoot := 0
    lat_acc_overshoot_ahead := false
    v_turn := 15
    acc_limits := (-1, 2) }

/-- Witness for C6: at the concrete controller the negative radicand yields
the minimum solution speed. -/
theorem entering_no_overshoot_v_turn_witness :
    solutionVTurn cW6 = MIN_V_SOLUTION := by
  have h := (entering_no_overshoot_v_turn cW6 rfl rfl).1
  rw [h]
  norm_num [cW6, interp]

/-- Claim C8 as stated is refuted below; this is the amended claim: the
cached toggle is re-read from the store and the timestamp updated if and
only if strictly more than 5.0 seconds elapsed since the last refresh;
otherwise the call leaves the controller state unchanged. -/
theorem params_refresh_strict (s : Ctrl) (now : ℝ) (store : Bool) :
    (now > s.last_params_update + 5 →
      (update_params s now store).is_enabled = store ∧
      (update_params s now store).last_params_update = now) ∧
    (¬ now > s.last_params_update + 5 → update_params s now store = s) := by
  constructor
  · intro h
    unfold update_params
    rw [if_pos h]
    exact ⟨rfl, rfl⟩
  · intro h
    unfold update_params
    rw [if_neg h]

/-- The constructor state with the toggle initially false: the pre-state of
the boundary counterexample for C8. -/
def cP8 : Ctrl := initCtrl 1 1 false

/-- Counterexample to C8 as stated: at now = 5.0 with last_refresh = 0.0
exactly 5.0 seconds have elapsed (now - last_refresh ≥ 5.0), yet the call
is a no-op: the cached toggle stays false although the store holds true,
and the timestamp is not updated. -/
theorem params_refresh_boundary_cex :
    (5 : ℝ) - cP8.last_params_update ≥ 5 ∧
    (update_params cP8 5 true).is_enabled = false ∧
    (update_params cP8 5 true).last_params_update = 0 := by
  have hc : ¬ (5 : ℝ) > cP8.last_params_update + 5 := by
    norm_num [cP8, initCtrl, resetLat]
  refine ⟨by norm_num [cP8, initCtrl, resetLat], ?_, ?_⟩ <;>
    · unfold update_params
      rw [if_neg hc]
      norm_num [cP8, initCtrl, resetLat]

/-- Witness for the amended C8: at now = 10 the refresh does fire and both
the cached toggle and the timestamp are updated. -/
theorem params_refresh_strict_witness :
    (update_params cP8 10 true).is_enabled = true ∧
    (update_params cP8 10 true).last_params_update = 10 :=
  (params_refresh_strict cP8 10 true).1 (by norm_num [cP8, initCtrl, resetLat])

/-- Claim C4: while the feature is active, a current lateral acceleration
strictly inside the hysteresis band (1.3, 1.5) never changes a Turning or
Leaving state. -/
theorem hysteresis_band_keeps_state (s : Ctrl) (hop : s.op_enabled = true)
    (hen : s.is_enabled = true) (hgas : s.gas_pressed = false)
    (hst : s.state = .turning ∨ s.state = .leaving)
    (hlo : 1.3 < s.current_lat_acc) (hhi : s.current_lat_acc < 1.5) :
    (state_transition s).state = s.state := by
  have hg : (!s.op_enabled || !s.is_enabled || s.gas_pressed) = false := by
    rw [hop, hen, hgas]
    rfl
  have hA : ¬ s.current_lat_acc ≤ LEAVING_LAT_ACC_TH := by
    simp only [LEAVING_LAT_ACC_TH]
    linarith
  have hB : ¬ s.current_lat_acc ≥ TURNING_LAT_ACC_TH := by
    simp only [TURNING_LAT_ACC_TH]
    linarith
  have hC : ¬ s.current_lat_acc < FINISH_LAT_ACC_TH := by
    simp only [FINISH_LAT_ACC_TH]
    linarith
  rw [state_transition_state]
  rcases hst with h | h <;> simp [nextState, hg, h, hA, hB, hC]

/-- A concrete Turning-state controller inside the hysteresis band. -/
def cW4 : Ctrl :=
  { steerRatio := 1
    wheelbase := 1
    op_enabled := true
    gas_pressed := false
    is_enabled := true
    last_params_update := 0
    v_cruise_setpoint := 20
    v_ego := 10
    a_ego := 0
    state := .turning
    current_lat_acc := 1.4
    max_v_for_current_curvature := 12
    max_pred_lat_acc := 2
    v_overshoot_distance := 200
    v_overshoot := 0
    lat_acc_overshoot_ahead := false
    v_turn := 11
    acc_limits := (-1, 2) }

/-- Witness for C4 at current_lat_acc = 1.4 in the Turning state. -/
theorem hysteresis_band_keeps_state_witness :
    (state_transition cW4).state = cW4.state :=
  hysteresis_band_keeps_state cW4 rfl rfl rfl (Or.inl rfl)
    (by norm_num [cW4]) (by norm_num [cW4])

/-- Claim C1: whenever the system is not enabled, or the cached feature
toggle is off at this cycle, or the accelerator is pressed, `update` forces
the state to Disabled, and when the previous state was not Disabled the
`LateralAccState` fields come out reset to (0, 0, 0, false, 200, 0),
regardless of all other inputs. -/
theorem guard_forces_disabled_and_resets (s : Ctrl) (enabled : Bool)
    (v_ego a_ego v_cruise : ℝ) (acc : ℝ × ℝ) (sm : Snapshot) (now : ℝ) (store : Bool)
    (hguard : enabled = false ∨ effToggle s now store = false ∨
      sm.carState.gasPressed = true) :
    (update s enabled v_ego a_ego v_cruise acc sm now store).state = .disabled ∧
    (s.state ≠ .disabled →
      (update s enabled v_ego a_ego v_cruise acc sm now store).current_lat_acc = 0 ∧
      (update s enabled v_ego a_ego v_cruise acc sm now store).max_pred_lat_acc = 0 ∧
      (update s enabled v_ego a_ego v_cruise acc sm now store).max_v_for_current_curvature = 0 ∧
      (update s enabled v_ego a_ego v_cruise acc sm now store).lat_acc_overshoot_ahead = false ∧
      (update s enabled v_ego a_ego v_cruise acc sm now store).v_overshoot_distance = 200 ∧
      (update s enabled v_ego a_ego v_cruise acc sm now store).v_overshoot = 0) := by
  rw [update_eq]
  set t := update_calculations (update_params
    { s with
      op_enabled := enabled
      gas_pressed := sm.carState.gasPressed
      v_ego := v_ego
      a_ego := a_ego
      v_cruise_setpoint := v_cruise
      acc_limits := acc } now store) sm with ht
  have hop : t.op_enabled = enabled := by rw [ht]; simp
  have hen : t.is_enabled = effToggle s now store := by rw [ht]; simp [effToggle]
  have hgs : t.gas_pressed = sm.carState.gasPressed := by rw [ht]; simp
  have hstt : t.state = s.state := by rw [ht]; simp
  have hnext : nextState t = .disabled := by
    have hg : (!t.op_enabled || !t.is_enabled || t.gas_pressed) = true := by
      rw [hop, hen, hgs]
      rcases hguard with h | h | h <;> simp [h]
    simp [nextState, hg]
  refine ⟨?_, fun hne => ?_⟩
  · rw [update_solution_state, state_transition_state, hnext]
  · have h4 : state_transition t = { resetLat t with state := .disabled } := by
      unfold state_transition
      rw [hnext]
      exact setState_to_disabled t (by rw [hstt]; exact hne)
    rw [h4]
    simp [resetLat]

/-- A concrete non-Disabled (Turning) controller used to instantiate the
forced-disable claim. -/
def cW1 : Ctrl :=
  { steerRatio := 1
    wheelbase := 1
    op_enabled := true
    gas_pressed := false
    is_enabled := true
    last_params_update := 7
    v_cruise_setpoint := 25
    v_ego := 12
    a_ego := 0
    state := .turning
    current_lat_acc := 2
    max_v_for_current_curvature := 9
    max_pred_lat_acc := 2
    v_overshoot_distance := 35
    v_overshoot := 6
    lat_acc_overshoot_ahead := true
    v_turn := 9
    acc_limits := (-2, 2) }

/-- Witness for C1: dropping `enabled` while Turning forces Disabled and
resets every `LateralAccState` field. -/
theorem guard_forces_disabled_and_resets_witness :
    (update cW1 false 12 0 25 (-2, 2) (plainSnap 30 false) 8 true).state = .disabled ∧
    (update cW1 false 12 0 25 (-2, 2) (plainSnap 30 false) 8 true).current_lat_acc = 0 ∧
    (update cW1 false 12 0 25 (-2, 2) (plainSnap 30 false) 8 true).max_pred_lat_acc = 0 ∧
    (update cW1 false 12 0 25 (-2, 2) (plainSnap 30 false) 8 true).max_v_for_current_curvature = 0 ∧
    (update cW1 false 12 0 25 (-2, 2) (plainSnap 30 false) 8 true).lat_acc_overshoot_ahead = false ∧
    (update cW1 false 12 0 25 (-2, 2) (plainSnap 30 false) 8 true).v_overshoot_distance = 200 ∧
    (update cW1 false 12 0 25 (-2, 2) (plainSnap 30 false) 8 true).v_overshoot = 0 := by
  have h := guard_forces_disabled_and_resets cW1 false 12 0 25 (-2, 2)
    (plainSnap 30 false) 8 true (Or.inl rfl)
  have h2 := h.2 (by simp [cW1])
  exact ⟨h.1, h2.1, h2.2.1, h2.2.2.1, h2.2.2.2.1, h2.2.2.2.2.1, h2.2.2.2.2.2⟩

/-- Claim C2 as stated is refuted below; this is the amended claim: the
solved target speed stored by `update` is never below 8.33 m/s, and the
exposed `v_turn` output is never below 8.33 m/s in any cycle that does not
end Disabled; while Disabled the exposed output is the raw cruise
setpoint. -/
theorem v_turn_clamped (s : Ctrl) (enabled : Bool) (v_ego a_ego v_cruise : ℝ)
    (acc : ℝ × ℝ) (sm : Snapshot) (now : ℝ) (store : Bool) :
    (8.33 : ℝ) ≤ (update s enabled v_ego a_ego v_cruise acc sm now store).v_turn ∧
    ((update s enabled v_ego a_ego v_cruise acc sm now store).state = .disabled ∨
      (8.33 : ℝ) ≤ v_turn_out (update s enabled v_ego a_ego v_cruise acc sm now store)) := by
  have h1 : (8.33 : ℝ) ≤ (update s enabled v_ego a_ego v_cruise acc sm now store).v_turn := by
    rw [update_eq, update_solution_v_turn]
    calc (8.33 : ℝ) = MIN_V_SOLUTION := by norm_num [MIN_V_SOLUTION]
      _ ≤ _ := le_max_right _ _
  refine ⟨h1, ?_⟩
  by_cases hd : (update s enabled v_ego a_ego v_cruise acc sm now store).state = .disabled
  · exact Or.inl hd
  · right
    unfold v_turn_out
    rw [if_pos hd]
    exact h1

/-- The constructor state (toggle initially on): the reachable pre-state of
the C2 counterexample. -/
def cS0 : Ctrl := initCtrl 15 3 true

/-- Counterexample to C2 as stated: one `update` on the freshly constructed
controller with the system disabled and a zero cruise setpoint leaves the
state machine Disabled, and the exposed `v_turn` output is the raw cruise
setpoint 0, well below 8.33 m/s. -/
theorem v_turn_out_below_min_cex :
    v_turn_out (update cS0 false 0 0 0 (0, 0) (plainSnap 0 false) 10 false) = 0 ∧
    ¬ ((8.33 : ℝ) ≤ 0) := by
  refine ⟨?_, by norm_num⟩
  have hstate : (update cS0 false 0 0 0 (0, 0) (plainSnap 0 false) 10 false).state
      = .disabled := by
    rw [update_eq, update_solution_state, state_transition_state]
    simp [nextState]
  have hvc : (update cS0 false 0 0 0 (0, 0) (plainSnap 0 false) 10 false).v_cruise_setpoint
      = 0 := by
    rw [update_eq]
    simp
  unfold v_turn_out
  rw [if_neg (by rw [hstate]; simp), hvc]

/-- Claim C5 as stated is refuted below; this is the amended claim: when no
grid curvature sample reaches the overshoot threshold, the evaluation
clears overshoot_ahead but leaves overshoot_distance and overshoot_speed
exactly as they were before the cycle (so they hold the reset defaults only
if they already did). -/
theorem no_overshoot_keeps_fields (s : Ctrl) (sm : Snapshot)
    (h : ∀ c ∈ eval_curvature (pathPoly s.v_ego sm) EVAL_RANGE,
        c < A_LAT_REG_MAX / max s.v_ego 0.1 ^ 2) :
    (update_calculations s sm).lat_acc_overshoot_ahead = false ∧
    (update_calculations s sm).v_overshoot_distance = s.v_overshoot_distance ∧
    (update_calculations s sm).v_overshoot = s.v_overshoot := by
  have hnone := firstIdxGe_none _ _ h
  refine ⟨?_, ?_, ?_⟩ <;> simp [update_calculations, hnone]

/-- A controller whose overshoot distance and speed still hold the values a
previous overshooting cycle stored (20 m and 5 m/s), as the evaluation
leaves them on any later cycle without overshoot. -/
def cS5 : Ctrl :=
  { steerRatio := 15
    wheelbase := 3
    op_enabled := true
    gas_pressed := false
    is_enabled := true
    last_params_update := 0
    v_cruise_setpoint := 10
    v_ego := 0
    a_ego := 0
    state := .disabled
    current_lat_acc := 0
    max_v_for_current_curvature := 0
    max_pred_lat_acc := 0
    v_overshoot_distance := 20
    v_overshoot := 5
    lat_acc_overshoot_ahead := false
    v_turn := 0
    acc_limits := (0, 0) }

/-- Counterexample to C5 as stated: with the straight-line polynomial no
sample reaches the overshoot threshold, yet after the evaluation the
overshoot speed is 5 (not the reset default 0) and the overshoot distance
is 20 (not the reset default 200). -/
theorem no_overshoot_stale_fields_cex :
    (∀ c ∈ eval_curvature (pathPoly cS5.v_ego (plainSnap 0 false)) EVAL_RANGE,
        c < A_LAT_REG_MAX / max cS5.v_ego 0.1 ^ 2) ∧
    (update_calculations cS5 (plainSnap 0 false)).lat_acc_overshoot_ahead = false ∧
    (update_calculations cS5 (plainSnap 0 false)).v_overshoot ≠ 0 ∧
    (update_calculations cS5 (plainSnap 0 false)).v_overshoot_distance ≠ 200 := by
  have hth : (0 : ℝ) < A_LAT_REG_MAX / max cS5.v_ego 0.1 ^ 2 := by
    apply div_pos
    · norm_num [A_LAT_REG_MAX]
    · have h1 : (0 : ℝ) < max cS5.v_ego 0.1 :=
        lt_of_lt_of_le (by norm_num) (le_max_right _ _)
      positivity
  have hall : ∀ c ∈ eval_curvature (pathPoly cS5.v_ego (plainSnap 0 false)) EVAL_RANGE,
      c < A_LAT_REG_MAX / max cS5.v_ego 0.1 ^ 2 := by
    rw [pathPoly_plainSnap, eval_curvature_zeroPoly]
    intro c hc
    rw [List.eq_of_mem_replicate hc]
    exact hth
  have hc := update_calculations_plainSnap cS5 0 false
  refine ⟨hall, hc.2.2.1, ?_, ?_⟩
  · rw [hc.2.2.2.1]
    norm_num [cS5]
  · rw [hc.2.2.2.2]
    norm_num [cS5]

/-- Witness for the amended C5 at the concrete stale-field controller. -/
theorem no_overshoot_keeps_fields_witness :
    (update_calculations cS5 (plainSnap 0 false)).lat_acc_overshoot_ahead = false ∧
    (update_calculations cS5 (plainSnap 0 false)).v_overshoot_distance =
      cS5.v_overshoot_distance ∧
    (update_calculations cS5 (plainSnap 0 false)).v_overshoot = cS5.v_overshoot := by
  refine no_overshoot_keeps_fields cS5 (plainSnap 0 false) ?_
  rw [pathPoly_plainSnap, eval_curvature_zeroPoly]
  intro c hc
  rw [List.eq_of_mem_replicate hc]
  apply div_pos
  · norm_num [A_LAT_REG_MAX]
  · have h1 : (0 : ℝ) < max cS5.v_ego 0.1 :=
      lt_of_lt_of_le (by norm_num) (le_max_right _ _)
    positivity

/-- Above the last breakpoint the turning deceleration table clamps to its
last value. -/
lemma interp_turning_high (x : ℝ) (h : 3 < x) :
    interp x [1, 2, 3] [-0.1, -0.2, -0.4] = -0.4 := by
  have h1 : ¬ x ≤ (1 : ℝ) := by linarith
  have h2 : ¬ x ≤ (2 : ℝ) := by linarith
  have h3 : ¬ x ≤ (3 : ℝ) := by linarith
  simp [interp, h1, h2, h3]

/-- Claim C3 as stated is refuted below; this is the amended claim: the max
component of the limits pair is returned unchanged in every cycle, and the
min component is less than or equal to the value passed in for every cycle
whose post-transition state is not Turning; in Turning cycles the min is
overwritten from the turning deceleration table. -/
theorem acc_limits_discipline (s : Ctrl) (enabled : Bool)
    (v_ego a_ego v_cruise : ℝ) (acc : ℝ × ℝ) (sm : Snapshot) (now : ℝ) (store : Bool) :
    (update s enabled v_ego a_ego v_cruise acc sm now store).acc_limits.2 = acc.2 ∧
    ((update s enabled v_ego a_ego v_cruise acc sm now store).state = .turning ∨
      (update s enabled v_ego a_ego v_cruise acc sm now store).acc_limits.1 ≤ acc.1) := by
  rw [update_eq]
  set t := update_calculations (update_params
    { s with
      op_enabled := enabled
      gas_pressed := sm.carState.gasPressed
      v_ego := v_ego
      a_ego := a_ego
      v_cruise_setpoint := v_cruise
      acc_limits := acc } now store) sm with ht
  have hacc : (state_transition t).acc_limits = acc := by
    rw [state_transition_acc_limits, ht]
    simp
  have hta : t.acc_limits = acc := by
    rw [ht]
    simp
  constructor
  · rw [update_solution_acc_limits]
    show (state_transition t).acc_limits.2 = acc.2
    rw [hacc]
  · cases hstw : nextState t with
    | turning =>
        left
        rw [update_solution_state, state_transition_state]
        exact hstw
    | disabled =>
        right
        rw [update_solution_acc_limits]
        show solutionAccMin (state_transition t) ≤ acc.1
        simp [solutionAccMin, hstw, hacc, hta]
    | entering =>
        right
        rw [update_solution_acc_limits]
        show solutionAccMin (state_transition t) ≤ acc.1
        simp [solutionAccMin, hstw, hacc, hta]
    | leaving =>
        right
        rw [update_solution_acc_limits]
        show solutionAccMin (state_transition t) ≤ acc.1
        simp [solutionAccMin, hstw, hacc, hta]

/-- A Turning-state controller whose cycle raises the minimum acceleration
limit: the pre-state for the C3 counterexample. -/
def cT3 : Ctrl :=
  { steerRatio := 1
    wheelbase := 1
    op_enabled := true
    gas_pressed := false
    is_enabled := true
    last_params_update := 100
    v_cruise_setpoint := 30
    v_ego := 1
    a_ego := 0
    state := .turning
    current_lat_acc := 2
    max_v_for_current_curvature := 10
    max_pred_lat_acc := 2
    v_overshoot_distance := 200
    v_overshoot := 0
    lat_acc_overshoot_ahead := false
    v_turn := 10
    acc_limits := (-1, 2) }

/-- Counterexample to C3 as stated: in a Turning cycle (steering 240 deg at
1 m/s keeps the current lateral acceleration 4 pi / 3 above every table
breakpoint) the returned min limit is the table value -0.4, strictly above
the -4 passed in, so the min component is raised, not tightened. -/
theorem turning_acc_min_raised_cex :
    ¬ ((update cT3 true 1 0 30 (-4, 2) (plainSnap 240 false) 100 false).acc_limits.1 ≤ -4) := by
  rw [update_eq]
  set t := update_calculations (update_params
    { cT3 with
      op_enabled := true
      gas_pressed := (plainSnap 240 false).carState.gasPressed
      v_ego := 1
      a_ego := 0
      v_cruise_setpoint := 30
      acc_limits := (-4, 2) } 100 false) (plainSnap 240 false) with ht
  have hcla : t.current_lat_acc = 4 * Real.pi / 3 := by
    rw [ht, (update_calculations_plainSnap _ 240 false).1]
    simp [cT3, DEG_TO_RAD]
    rw [abs_of_nonneg (by positivity)]
    ring
  have hstate : t.state = .turning := by
    rw [ht]
    simp [cT3]
  have hop : t.op_enabled = true := by
    rw [ht]
    simp
  have hgs : t.gas_pressed = false := by
    rw [ht]
    simp
  have his : t.is_enabled = true := by
    rw [ht]
    simp only [update_calculations_is_enabled, update_params_is_enabled, effToggle]
    rw [if_neg (by norm_num [cT3])]
    simp [cT3]
  have hgt : ¬ (t.current_lat_acc ≤ LEAVING_LAT_ACC_TH) := by
    rw [hcla]
    simp only [LEAVING_LAT_ACC_TH]
    nlinarith [Real.pi_gt_three]
  have hnext : nextState t = .turning := by
    have hg : (!t.op_enabled || !t.is_enabled || t.gas_pressed) = false := by
      rw [hop, his, hgs]
      rfl
    simp [nextState, hg, hstate, hgt]
  have hw : state_transition t = { t with state := .turning } := by
    unfold state_transition
    rw [hnext]
    exact setState_ne_disabled t .turning (by decide)
  have hmin : solutionAccMin (state_transition t) = -0.4 := by
    rw [hw]
    have hproj : ({ t with state := VTCState.turning } : Ctrl).current_lat_acc
        = t.current_lat_acc := rfl
    simp only [solutionAccMin, hproj, hcla]
    exact interp_turning_high _ (by nlinarith [Real.pi_gt_three])
  rw [update_solution_acc_limits]
  show ¬ (solutionAccMin (state_transition t) ≤ -4)
  rw [hmin]
  norm_num

end VisionTurn
